import Mathlib

/-!
Verification development for the tec_util repository (tec_util/core.py).
The definitions below are a shallow embedding of the functions of core.py;
numeric values are modelled by rationals (and by real numbers where the
trigonometric revolution transform is involved), fallible Python code is
modelled with Except over an explicit error type, and the mutable state of
the tecplot layout page is passed explicitly. Theorems settle the frozen
claims about this code.
-/

namespace TecUtil

/-- Runtime error outcomes of the embedded Python code: the AssertionError of
the selector helpers carrying its message, the TypeError raised by the
pattern matching primitive on a non-string pattern, NameError for an unbound
name, IndexError for a list index out of range, and the AssertionError
raised by the checks of revolve_dataset. -/
inductive PyError where
  | noMatch (msg : String)
  | typeError
  | nameError (n : String)
  | indexError
  | assertionError (msg : String)
deriving DecidableEq

/-- Named catalog entry of a grid dataset: a variable or a zone. -/
structure Entity where
  name : String
deriving DecidableEq

/-- Argument accepted by get_variables and get_zones (core.py 20-46): Python
None, a bare pattern string, or a list of pattern strings. -/
inductive Patterns where
  | pnone
  | pstr (s : String)
  | plist (ps : List String)
deriving DecidableEq

/-- Model of the external catalog primitives ds.variables(pattern) and
ds.zones(pattern) of the grid store, specified at the interface only: with
pattern None the whole catalog is yielded in order; with a string pattern
the entries whose name the glob matcher of the store accepts are yielded in
catalog order; with any other argument the primitive raises TypeError,
because it hands the pattern to fnmatch, which requires a string. The glob
matcher itself is a parameter, since its implementation belongs to the
external store. -/
def catalog_query (matcher : String → String → Bool) (catalog : List Entity) :
    Patterns → Except PyError (List Entity)
  | .pnone => .ok catalog
  | .pstr s => .ok (catalog.filter (fun e => matcher s e.name))
  | .plist _ => .error .typeError

/-- Insertion into the Python dict of matches keyed by entity name (core.py
26-29 and 40-43): an existing key keeps its position and takes the new
value, a new key is appended at the end. -/
def dict_insert (m : List Entity) (v : Entity) : List Entity :=
  if m.any (fun e => e.name == v.name) then
    m.map (fun e => if e.name == v.name then v else e)
  else m ++ [v]

/-- Evaluation of the message of the failing assert in the selector helpers:
Python join over the patterns argument joins the elements of a list, joins
the characters of a bare string, and raises TypeError on None. -/
def patterns_join : Patterns → Except PyError String
  | .pnone => .error .typeError
  | .pstr s => .ok (String.intercalate " " (s.toList.map Char.toString))
  | .plist ps => .ok (String.intercalate " " ps)

/-- Final step of the selector helpers: the assert on a non-empty result
(core.py 31 and 45). An error computed earlier propagates; an empty result
trips the assert, whose message appends the joined patterns to the text
given in the argument named what; Python truthiness of a list is
non-emptiness. -/
def assert_nonempty (what : String) (patterns : Patterns) :
    Except PyError (List Entity) → Except PyError (List Entity)
  | .error e => .error e
  | .ok result =>
      if result = [] then
        match patterns_join patterns with
        | .ok joined => .error (.noMatch (what ++ joined))
        | .error e => .error e
      else .ok result

/-- Shared body of get_variables (core.py 20-32) and get_zones (core.py
34-46): a falsy (None, empty string, empty list) or bare-string patterns
argument is passed through to the catalog primitive unchanged; a non-empty
list of patterns is folded into an insertion-ordered dict keyed by name,
one pattern at a time; the result must be non-empty. -/
def select_entities (what : String) (matcher : String → String → Bool)
    (catalog : List Entity) (patterns : Patterns) : Except PyError (List Entity) :=
  assert_nonempty what patterns
    (match patterns with
     | .plist ps =>
         if ps = [] then catalog_query matcher catalog patterns
         else .ok (ps.foldl (fun m p =>
           (catalog.filter (fun e => matcher p e.name)).foldl dict_insert m) [])
     | _ => catalog_query matcher catalog patterns)

/-- Embedding of get_variables (core.py 20-32). -/
def get_variables (matcher : String → String → Bool) (ds : List Entity)
    (patterns : Patterns) : Except PyError (List Entity) :=
  select_entities "No variables in dataset matching " matcher ds patterns

/-- Embedding of get_zones (core.py 34-46). -/
def get_zones (matcher : String → String → Bool) (ds : List Entity)
    (patterns : Patterns) : Except PyError (List Entity) :=
  select_entities "No zones in dataset matching " matcher ds patterns

/-- True when some catalog entry name matches some pattern of the list. -/
def any_match (matcher : String → String → Bool) (catalog : List Entity)
    (ps : List String) : Bool :=
  catalog.any (fun e => ps.any (fun p => matcher p e.name))

/-- True when the call outcome is the no-match AssertionError. -/
def is_noMatch {α : Type} : Except PyError α → Bool
  | .error (.noMatch _) => true
  | _ => false

theorem dict_insert_ne_nil (m : List Entity) (v : Entity) : dict_insert m v ≠ [] := by
  unfold dict_insert
  split
  · intro h
    rcases List.map_eq_nil_iff.mp h with rfl
    simp at *
  · simp

theorem foldl_dict_insert_ne_nil (l : List Entity) (m : List Entity) (h : m ≠ []) :
    l.foldl dict_insert m ≠ [] := by
  induction l generalizing m with
  | nil => simpa
  | cons a l ih => exact ih _ (dict_insert_ne_nil m a)

theorem foldl_dict_insert_nil_start (l : List Entity) :
    List.foldl dict_insert [] l = [] ↔ l = [] := by
  cases l with
  | nil => simp
  | cons a l =>
      simp only [List.foldl_cons]
      constructor
      · intro h
        exact absurd h (foldl_dict_insert_ne_nil l (dict_insert [] a) (dict_insert_ne_nil [] a))
      · intro h; exact absurd h (by simp)

theorem select_fold_ne_nil (matcher : String → String → Bool)
    (catalog : List Entity) (ps : List String) (m : List Entity) (h : m ≠ []) :
    ps.foldl (fun m p =>
        (catalog.filter (fun e => matcher p e.name)).foldl dict_insert m) m ≠ [] := by
  induction ps generalizing m with
  | nil => simpa
  | cons p ps ih =>
      simp only [List.foldl_cons]
      exact ih _ (foldl_dict_insert_ne_nil _ _ h)

theorem select_fold_nil_iff (matcher : String → String → Bool)
    (catalog : List Entity) (ps : List String) :
    (ps.foldl (fun m p =>
        (catalog.filter (fun e => matcher p e.name)).foldl dict_insert m) []) = []
      ↔ ∀ p ∈ ps, catalog.filter (fun e => matcher p e.name) = [] := by
  induction ps with
  | nil => simp
  | cons p ps ih =>
      simp only [List.foldl_cons, List.mem_cons]
      by_cases hp : catalog.filter (fun e => matcher p e.name) = []
      · rw [hp]
        simp only [List.foldl_nil]
        rw [ih]
        constructor
        · intro h q hq
          rcases hq with rfl | hq
          · exact hp
          · exact h q hq
        · intro h q hq; exact h q (Or.inr hq)
      · constructor
        · intro h
          exact absurd h (select_fold_ne_nil matcher catalog ps _
            ((foldl_dict_insert_nil_start _).not.mpr hp))
        · intro h; exact absurd (h p (Or.inl rfl)) hp

theorem any_match_false_iff (matcher : String → String → Bool)
    (catalog : List Entity) (ps : List String) :
    any_match matcher catalog ps = false
      ↔ ∀ p ∈ ps, catalog.filter (fun e => matcher p e.name) = [] := by
  constructor
  · intro h p hp
    rw [List.filter_eq_nil_iff]
    intro e he hm
    have h3 : any_match matcher catalog ps = true :=
      List.any_eq_true.mpr ⟨e, he, List.any_eq_true.mpr ⟨p, hp, hm⟩⟩
    rw [h] at h3
    exact Bool.false_ne_true h3
  · intro h
    rw [any_match, List.any_eq_false]
    intro e he
    rw [Bool.not_eq_true, List.any_eq_false]
    intro p hp
    rw [Bool.not_eq_true, Bool.eq_false_iff]
    intro hm
    have := (List.filter_eq_nil_iff.mp (h p hp)) e he
    simp only [hm, not_true_eq_false] at this

theorem assert_nonempty_ok_nil (what : String) (a : String) (ps : List String) :
    assert_nonempty what (.plist (a :: ps)) (.ok [])
      = .error (.noMatch (what ++ String.intercalate " " (a :: ps))) := rfl

theorem assert_nonempty_ok_of_ne_nil (what : String) (patterns : Patterns)
    (res : List Entity) (h : res ≠ []) :
    assert_nonempty what patterns (.ok res) = .ok res := by
  simp [assert_nonempty, h]

theorem select_entities_noMatch_iff (what : String) (matcher : String → String → Bool)
    (catalog : List Entity) (a : String) (ps : List String) :
    (select_entities what matcher catalog (.plist (a :: ps))
        = .error (.noMatch (what ++ String.intercalate " " (a :: ps)))
      ↔ any_match matcher catalog (a :: ps) = false) ∧
    (∀ res, select_entities what matcher catalog (.plist (a :: ps)) = .ok res → res ≠ []) := by
  have hfold := select_fold_nil_iff matcher catalog (a :: ps)
  have hany := any_match_false_iff matcher catalog (a :: ps)
  have hsel : select_entities what matcher catalog (.plist (a :: ps))
      = assert_nonempty what (.plist (a :: ps))
          (.ok ((a :: ps).foldl (fun m p =>
            (catalog.filter (fun e => matcher p e.name)).foldl dict_insert m) [])) := rfl
  rw [hsel]
  by_cases hf : ((a :: ps).foldl (fun m p =>
      (catalog.filter (fun e => matcher p e.name)).foldl dict_insert m) []) = []
  · constructor
    · rw [hf, assert_nonempty_ok_nil]
      exact iff_of_true rfl (hany.mpr (hfold.mp hf))
    · intro res hres
      rw [hf, assert_nonempty_ok_nil] at hres
      simp at hres
  · constructor
    · rw [assert_nonempty_ok_of_ne_nil what _ _ hf]
      apply iff_of_false
      · simp
      · intro hm
        exact hf (hfold.mpr (hany.mp hm))
    · intro res hres
      rw [assert_nonempty_ok_of_ne_nil what _ _ hf] at hres
      simp only [Except.ok.injEq] at hres
      rw [← hres]
      exact hf

/-- Concrete glob-free matcher used in closed statements: a pattern matches
exactly the name equal to it. -/
def eq_matcher (p n : String) : Bool := p == n

/-- Concrete one-entry catalog used in closed statements. -/
def catX : List Entity := [Entity.mk "x"]

/-- C5 counterexample: with the one-variable catalog x and the empty pattern
list, no catalog entry matches any pattern of the list, yet get_variables
does not raise the no-match error: the empty list is falsy in Python, so it
is passed unchanged to the catalog primitive, which raises TypeError on a
non-string pattern. The claimed equivalence between raising NoMatchError
and matching nothing therefore fails at the empty pattern list. -/
theorem select_empty_pattern_list_counterexample :
    any_match eq_matcher catX [] = false ∧
    is_noMatch (get_variables eq_matcher catX (.plist [])) = false ∧
    get_variables eq_matcher catX (.plist []) = .error .typeError :=
  ⟨rfl, rfl, rfl⟩

/-- C5 amended: for every catalog, matcher and NON-EMPTY pattern list P,
get_variables and get_zones raise the no-match AssertionError, with a
message naming the joined patterns, exactly when no catalog entry name
matches any pattern of P; and a caller never receives an empty result from
a successful call. An empty pattern list is falsy in Python and bypasses
the no-match check. -/
theorem select_noMatch_iff (matcher : String → String → Bool)
    (catalog : List Entity) (P : List String) (hP : P ≠ []) :
    (get_variables matcher catalog (.plist P)
        = .error (.noMatch ("No variables in dataset matching "
            ++ String.intercalate " " P))
      ↔ any_match matcher catalog P = false) ∧
    (get_zones matcher catalog (.plist P)
        = .error (.noMatch ("No zones in dataset matching "
            ++ String.intercalate " " P))
      ↔ any_match matcher catalog P = false) ∧
    (∀ res, get_variables matcher catalog (.plist P) = .ok res → res ≠ []) := by
  obtain ⟨a, ps, rfl⟩ := List.exists_cons_of_ne_nil hP
  have hv := select_entities_noMatch_iff "No variables in dataset matching "
    matcher catalog a ps
  have hz := select_entities_noMatch_iff "No zones in dataset matching "
    matcher catalog a ps
  exact ⟨hv.1, hz.1, hv.2⟩

/-- Closed instantiation of select_noMatch_iff at the catalog x and the
pattern list containing only y. -/
theorem select_noMatch_iff_witness :
    ((["y"] : List String) ≠ []) ∧
    ((get_variables eq_matcher catX (.plist ["y"])
        = .error (.noMatch ("No variables in dataset matching "
            ++ String.intercalate " " ["y"]))
      ↔ any_match eq_matcher catX ["y"] = false) ∧
    (get_zones eq_matcher catX (.plist ["y"])
        = .error (.noMatch ("No zones in dataset matching "
            ++ String.intercalate " " ["y"]))
      ↔ any_match eq_matcher catX ["y"] = false) ∧
    (∀ res, get_variables eq_matcher catX (.plist ["y"]) = .ok res → res ≠ [])) :=
  ⟨by decide, select_noMatch_iff eq_matcher catX ["y"] (by decide)⟩

/-- State of the active tecplot layout page: the identifiers of its frames in
creation order, together with a counter supplying fresh identifiers. -/
structure Page where
  frames : List Nat
  nextId : Nat
deriving DecidableEq

/-- Model of page.add_frame (consumed by temp_frame, core.py 92): a fresh
frame is appended to the page. -/
def add_frame (p : Page) : Nat × Page :=
  (p.nextId, Page.mk (p.frames ++ [p.nextId]) (p.nextId + 1))

/-- Model of page.delete_frame (consumed by temp_frame, core.py 94): the
frame is removed from the page. -/
def delete_frame (p : Page) (f : Nat) : Page :=
  Page.mk (p.frames.filter (fun g => g != f)) p.nextId

/-- Embedding of temp_frame (core.py 86-94). The contextmanager generator
adds a frame to the current page, yields it to the with-body, and deletes it
after the body finishes. There is no try/finally around the yield: when the
body raises, the exception propagates out of the generator at the yield and
page.delete_frame never runs, so the error branch below returns the page
state untouched. -/
def temp_frame {α : Type} (body : Nat → Page → Except PyError α × Page) (p : Page) :
    Except PyError α × Page :=
  let fp := add_frame p
  match body fp.1 fp.2 with
  | (.ok a, p2) => (.ok a, delete_frame p2 fp.1)
  | (.error e, p2) => (.error e, p2)

/-- C3: on normal completion of the with-body the temporary frame is removed
from the page, but when the body raises, the frame created by temp_frame is
still on the page after the call: the scoped release is skipped on the
exception path. -/
theorem temp_frame_leaks_frame_on_exception :
    (temp_frame (fun _ p => ((.ok 0 : Except PyError Nat), p)) (Page.mk [] 0)).2.frames
      = [] ∧
    (temp_frame (fun _ p => ((.error (.nameError "ds") : Except PyError Nat), p))
        (Page.mk [] 0)).2.frames = [0] :=
  ⟨rfl, rfl⟩

/-- Per-zone statistics record built by compute_statistics (core.py 145). -/
structure ZoneStats where
  name : String
  max : ℚ
  min : ℚ
  mean : ℚ
deriving DecidableEq

/-- Maximum of a value sequence, as numpy data.max(); the empty sequence,
which numpy rejects, is given the junk value zero. -/
def vmax : List ℚ → ℚ
  | [] => 0
  | x :: xs => xs.foldl max x

/-- Minimum of a value sequence, as numpy data.min(). -/
def vmin : List ℚ → ℚ
  | [] => 0
  | x :: xs => xs.foldl min x

/-- Arithmetic mean of a value sequence, as statistics.mean. -/
def vmean (l : List ℚ) : ℚ := l.sum / l.length

/-- Statistics loop of compute_statistics (core.py 144-151), phrased over the
correctly bound local name dataset: for each selected variable (outer loop)
and each selected zone (inner loop), a record with the zone name and the
max, min and mean of the (variable, zone) value sequence is appended, and
the per-variable lists are keyed by variable name in an insertion-ordered
dict. -/
def stats_loop (values : String → String → List ℚ)
    (varNames zoneNames : List String) : List (String × List ZoneStats) :=
  varNames.map (fun v => (v, zoneNames.map (fun z =>
    ZoneStats.mk z (vmax (values v z)) (vmin (values v z)) (vmean (values v z)))))

/-- Embedding of compute_statistics (core.py 110-153). Inside temp_frame the
datafile loads into the local name dataset (modelled as pure), but the
selector calls on lines 138 and 140 read the name ds, which is bound
nowhere in the module, so the body raises NameError there, before any
statistics are computed; the statistics loop of lines 144-151 is modelled
separately as stats_loop. -/
def compute_statistics (values : String → String → List ℚ)
    (variable_patterns zone_patterns : Patterns) (p : Page) :
    Except PyError (List (String × List ZoneStats)) × Page :=
  temp_frame (fun _ p1 => (.error (.nameError "ds"), p1)) p

/-- C1: evaluated on the single-variable, single-zone dataset with values
1, 2, 3, compute_statistics raises NameError for the unbound name ds
instead of returning statistics, while the statistics loop it never
reaches would return max 3, min 1, mean 2 for that dataset, as the claim
states. -/
theorem compute_statistics_nameError :
    (compute_statistics (fun _ _ => [1, 2, 3]) .pnone .pnone (Page.mk [] 0)).1
      = .error (.nameError "ds") ∧
    stats_loop (fun _ _ => [1, 2, 3]) ["v1"] ["zone1"]
      = [("v1", [ZoneStats.mk "zone1" 3 1 2])] := by
  refine ⟨rfl, ?_⟩
  norm_num [stats_loop, vmax, vmin, vmean, List.foldl]

/-- Count check of difference_datasets: on a count mismatch the code formats
an error message (core.py 184-188 for variables, 202-206 for zones) from
the names var_pattern and zone_pattern, but the bound parameters are named
var_patterns and zone_patterns; evaluating the unbound name raises
NameError while the message is being built, so the RuntimeError carrying
the two counts is never constructed. -/
def count_check (unbound : String) (xs_new xs_old : List Entity) : Except PyError Unit :=
  if xs_new.length != xs_old.length then .error (.nameError unbound)
  else .ok ()

/-- Variable-count check of difference_datasets (core.py 183-190). -/
def check_var_counts (var_new var_old : List Entity) : Except PyError Unit :=
  count_check "var_pattern" var_new var_old

/-- Zone-count check of difference_datasets (core.py 201-208). -/
def check_zone_counts (zone_new zone_old : List Entity) : Except PyError Unit :=
  count_check "zone_pattern" zone_new zone_old

/-- C4: whenever the selected variable lists of the two datasets have
different lengths, difference_datasets aborts with NameError for the
unbound name var_pattern, raised while the descriptive message is being
formatted, so no error naming the pattern and the two counts is produced;
the zone-count check fails the same way for zone lists. -/
theorem count_mismatch_raises_nameError (var_new var_old zone_new zone_old : List Entity)
    (hv : var_new.length ≠ var_old.length) (hz : zone_new.length ≠ zone_old.length) :
    check_var_counts var_new var_old = .error (.nameError "var_pattern") ∧
    check_zone_counts zone_new zone_old = .error (.nameError "zone_pattern") := by
  constructor
  · simp [check_var_counts, count_check, hv]
  · simp [check_zone_counts, count_check, hz]

/-- Closed instantiation of count_mismatch_raises_nameError at variable lists
of lengths one and zero and zone lists of lengths one and two. -/
theorem count_mismatch_raises_nameError_witness :
    ((([Entity.mk "a"] : List Entity).length ≠ ([] : List Entity).length) ∧
     (([Entity.mk "z1"] : List Entity).length
        ≠ ([Entity.mk "z1", Entity.mk "z2"] : List Entity).length)) ∧
    (check_var_counts [Entity.mk "a"] [] = .error (.nameError "var_pattern") ∧
     check_zone_counts [Entity.mk "z1"] [Entity.mk "z1", Entity.mk "z2"]
        = .error (.nameError "zone_pattern")) :=
  ⟨⟨by decide, by decide⟩,
    count_mismatch_raises_nameError [Entity.mk "a"] [] [Entity.mk "z1"]
      [Entity.mk "z1", Entity.mk "z2"] (by decide) (by decide)⟩

/-- Floating point value of a dataset: a number or NaN. -/
inductive RVal where
  | nan
  | num (q : ℚ)
deriving DecidableEq

/-- Elementwise subtraction on values; NaN propagates. -/
def RVal.sub : RVal → RVal → RVal
  | .num a, .num b => .num (a - b)
  | _, _ => .nan

/-- Body of the try block of difference_datasets for one (variable, zone
pair) combination (core.py 224-235): np.subtract succeeds when the two
value sequences have equal length, and broadcasts a length-one old
sequence; the result is then slice-assigned into the delta sequence, whose
length is the point count of the new zone. On any failure (a np.subtract
shape error, or a slice assignment length error when the new sequence has
length one and the old does not), the bare except clause catches the
exception and fills the delta sequence of that zone entirely with NaN. -/
def zone_delta (newVals oldVals : List RVal) : List RVal :=
  if newVals.length = oldVals.length then newVals.zipWith RVal.sub oldVals
  else if oldVals.length = 1 then newVals.map (fun x => RVal.sub x (oldVals.headD .nan))
  else List.replicate newVals.length RVal.nan

/-- Zone loop for one delta variable (core.py 224-235): every positional
zone pair is processed independently, in order, and the loop never raises
out of the operation. -/
def delta_zones (pairs : List (List RVal × List RVal)) : List (List RVal) :=
  pairs.map (fun pr => zone_delta pr.1 pr.2)

/-- C8: when the elementwise subtraction for the zone pair at position j
fails (the point counts differ and the old sequence cannot broadcast), the
loop still processes every zone pair, the delta of that zone is filled
entirely with NaN, and every other zone pair whose subtraction succeeds
receives its exact elementwise difference, unaffected by the failure. -/
theorem delta_zones_nan_fill (pairs : List (List RVal × List RVal)) (j : Nat)
    (a b : List RVal) (hj : pairs[j]? = some (a, b))
    (hlen : a.length ≠ b.length) (hb : b.length ≠ 1) :
    (delta_zones pairs).length = pairs.length ∧
    (delta_zones pairs)[j]? = some (List.replicate a.length RVal.nan) ∧
    (∀ x ∈ List.replicate a.length RVal.nan, x = RVal.nan) ∧
    (∀ i c d, i ≠ j → pairs[i]? = some (c, d) → c.length = d.length →
      (delta_zones pairs)[i]? = some (c.zipWith RVal.sub d)) := by
  refine ⟨by simp [delta_zones], ?_, ?_, ?_⟩
  · rw [delta_zones, List.getElem?_map, hj]
    simp [zone_delta, hlen, hb]
  · intro x hx
    exact List.eq_of_mem_replicate hx
  · intro i c d _ hi hcd
    rw [delta_zones, List.getElem?_map, hi]
    simp [zone_delta, hcd]

/-- Closed instantiation of delta_zones_nan_fill: the first zone pair has
point counts two and three and fails, the second pair subtracts exactly. -/
theorem delta_zones_nan_fill_witness :
    (([([RVal.num 1, RVal.num 2], [RVal.num 3, RVal.num 4, RVal.num 5]),
       ([RVal.num 1], [RVal.num 2])] : List (List RVal × List RVal))[0]?
        = some ([RVal.num 1, RVal.num 2], [RVal.num 3, RVal.num 4, RVal.num 5])) ∧
    (([RVal.num 1, RVal.num 2] : List RVal).length
        ≠ ([RVal.num 3, RVal.num 4, RVal.num 5] : List RVal).length) ∧
    (([RVal.num 3, RVal.num 4, RVal.num 5] : List RVal).length ≠ 1) ∧
    ((delta_zones [([RVal.num 1, RVal.num 2], [RVal.num 3, RVal.num 4, RVal.num 5]),
        ([RVal.num 1], [RVal.num 2])]).length
      = ([([RVal.num 1, RVal.num 2], [RVal.num 3, RVal.num 4, RVal.num 5]),
          ([RVal.num 1], [RVal.num 2])] : List (List RVal × List RVal)).length ∧
     (delta_zones [([RVal.num 1, RVal.num 2], [RVal.num 3, RVal.num 4, RVal.num 5]),
        ([RVal.num 1], [RVal.num 2])])[0]?
        = some (List.replicate ([RVal.num 1, RVal.num 2] : List RVal).length RVal.nan) ∧
     (∀ x ∈ List.replicate ([RVal.num 1, RVal.num 2] : List RVal).length RVal.nan,
        x = RVal.nan) ∧
     (∀ i c d, i ≠ 0 →
        ([([RVal.num 1, RVal.num 2], [RVal.num 3, RVal.num 4, RVal.num 5]),
          ([RVal.num 1], [RVal.num 2])] : List (List RVal × List RVal))[i]? = some (c, d) →
        c.length = d.length →
        (delta_zones [([RVal.num 1, RVal.num 2], [RVal.num 3, RVal.num 4, RVal.num 5]),
          ([RVal.num 1], [RVal.num 2])])[i]? = some (c.zipWith RVal.sub d))) :=
  ⟨rfl, by decide, by decide,
    delta_zones_nan_fill _ 0 _ _ rfl (by decide) (by decide)⟩

/-- Variable handle of a dataset: its name and its stable index. -/
structure Var where
  name : String
  index : Nat
deriving DecidableEq

/-- Delta variables created by the loop of core.py 219-223: positional pairs
in which the new or the old index is below nskip are skipped; every other
pair appends a variable named delta_ followed by the new name to
data_new, in pair order. -/
def delta_names (var_new var_old : List Var) (nskip : Nat) : List String :=
  (var_new.zip var_old).filterMap (fun pr =>
    if pr.1.index < nskip ∨ pr.2.index < nskip then none
    else some ("delta_" ++ pr.1.name))

/-- Indices handed to write_dataset by core.py 238: range(nskip) chained
with the range from initial_num_vars to the final variable count. -/
def vars_to_save (nskip initial final : Nat) : List Nat :=
  List.range nskip ++ List.range' initial (final - initial)

/-- Variable names the output file receives: the saved indices looked up in
the final variable list of data_new, which is the original variable list
with the delta variables appended by add_variable. -/
def written_vars (orig deltas : List String) (nskip : Nat) : List (Option String) :=
  (vars_to_save nskip orig.length (orig.length + deltas.length)).map
    (fun i => (orig ++ deltas)[i]?)

theorem range_map_getElem_append {α : Type} (n : Nat) (l rest : List α) (h : n ≤ l.length) :
    (List.range n).map (fun i => (l ++ rest)[i]?) = (l.take n).map some := by
  induction n generalizing l with
  | zero => simp
  | succ n ih =>
      cases l with
      | nil => simp at h
      | cons x l =>
          rw [List.range_succ_eq_map]
          simp only [List.map_cons, List.map_map, List.cons_append]
          have hx : ((x :: (l ++ rest)))[0]? = some x := by simp
          rw [hx]
          have : (List.range n).map ((fun i => (x :: (l ++ rest))[i]?) ∘ Nat.succ)
              = (List.range n).map (fun i => (l ++ rest)[i]?) := by
            apply List.map_congr_left
            intro i _
            simp
          rw [this, ih l (by simpa using h)]
          simp [List.take_succ_cons]

theorem range_shift_map_getElem_append {α : Type} (l rest : List α) :
    (List.range' l.length rest.length).map (fun i => (l ++ rest)[i]?) = rest.map some := by
  induction rest generalizing l with
  | nil => simp
  | cons b rest ih =>
      rw [show (b :: rest).length = rest.length + 1 from rfl,
        List.range'_succ l.length rest.length 1]
      simp only [List.map_cons]
      have hb : (l ++ b :: rest)[l.length]? = some b := by
        rw [List.getElem?_append_right (Nat.le_refl l.length)]
        simp
      rw [hb]
      have hlen : l.length + 1 = (l ++ [b]).length := by simp
      have hassoc : l ++ b :: rest = (l ++ [b]) ++ rest := by simp
      rw [hlen, hassoc, ih (l ++ [b])]

/-- C9: with nskip at most the original variable count, the written output
holds exactly the first nskip variables of the new dataset followed by the
created delta variables, and nothing else; and a delta variable named
delta_ followed by the new name is created exactly for the positional
pairs in which both indices are at least nskip, in pair order. -/
theorem difference_written_vars_exact (orig deltas : List String)
    (var_new var_old : List Var) (nskip : Nat) (h : nskip ≤ orig.length) :
    written_vars orig deltas nskip = (orig.take nskip ++ deltas).map some ∧
    delta_names var_new var_old nskip
      = ((var_new.zip var_old).filter
          (fun pr => decide (nskip ≤ pr.1.index) && decide (nskip ≤ pr.2.index))).map
          (fun pr => "delta_" ++ pr.1.name) := by
  constructor
  · rw [written_vars, vars_to_save, List.map_append,
      range_map_getElem_append nskip orig deltas h]
    have : orig.length + deltas.length - orig.length = deltas.length := by omega
    rw [this, range_shift_map_getElem_append orig deltas, List.map_append]
  · rw [delta_names]
    induction (var_new.zip var_old) with
    | nil => rfl
    | cons pr rest ih =>
        by_cases hc : nskip ≤ pr.1.index ∧ nskip ≤ pr.2.index
        · have hnot : ¬(pr.1.index < nskip ∨ pr.2.index < nskip) := by omega
          have hfilt : (decide (nskip ≤ pr.1.index) && decide (nskip ≤ pr.2.index)) = true := by
            simp [hc.1, hc.2]
          simp [List.filterMap_cons, List.filter_cons, if_neg hnot, hfilt, ih]
        · have hor : pr.1.index < nskip ∨ pr.2.index < nskip := by omega
          have hfilt : (decide (nskip ≤ pr.1.index) && decide (nskip ≤ pr.2.index)) = false := by
            rcases hor with hlt | hlt <;> simp [Nat.not_le_of_lt hlt]
          simp [List.filterMap_cons, List.filter_cons, if_pos hor, hfilt, ih]

/-- Closed instantiation of difference_written_vars_exact: three coordinate
variables, two data variables, nskip three. -/
theorem difference_written_vars_exact_witness :
    (3 ≤ (["x", "y", "z", "q1", "q2"] : List String).length) ∧
    (written_vars ["x", "y", "z", "q1", "q2"] ["delta_q1", "delta_q2"] 3
        = ((["x", "y", "z", "q1", "q2"] : List String).take 3
            ++ ["delta_q1", "delta_q2"]).map some ∧
     delta_names [Var.mk "q1" 3, Var.mk "q2" 4] [Var.mk "q1" 3, Var.mk "q2" 4] 3
        = ((([Var.mk "q1" 3, Var.mk "q2" 4] : List Var).zip
              [Var.mk "q1" 3, Var.mk "q2" 4]).filter
            (fun pr => decide (3 ≤ pr.1.index) && decide (3 ≤ pr.2.index))).map
            (fun pr => "delta_" ++ pr.1.name)) :=
  ⟨by decide,
    difference_written_vars_exact ["x", "y", "z", "q1", "q2"] ["delta_q1", "delta_q2"]
      [Var.mk "q1" 3, Var.mk "q2" 4] [Var.mk "q1" 3, Var.mk "q2" 4] 3 (by decide)⟩

/-- Dimensions of a grid-store zone as the store reports them: an (i, j, k)
triple, with trailing axes padded by one point. -/
def pad3 (dims : List Nat) : List Nat := (dims ++ [1, 1, 1]).take 3

/-- Rank of an ordered zone in the external grid store: the number of axes
holding more than one point. This behaviour of the store interface is
pinned down by the repository acceptance test (src/test/test_main.py line
60): an input zone of dimensions (11, 1, 1) revolved with 25 planes must
come out with dimensions (11, 25, 1), which forces the rank of (11, 1, 1)
to be 1 in core.py line 474. -/
def zone_rank (dims : List Nat) : Nat := (dims.filter (fun d => 1 < d)).length

/-- Dimension list of the output zone created by revolve_dataset (core.py
474): the input dimensions truncated to the zone rank, with the plane
count appended as the new trailing axis, reported by the store as an
(i, j, k) triple. -/
def revolve_zone_dims (dims : List Nat) (planes : Nat) : List Nat :=
  pad3 (dims.take (zone_rank dims) ++ [planes])

/-- C2 counterexample: revolving the rank-1 zone of dimensions (11, 1) with
25 planes yields the dimensions (11, 25, 1), not (11, 1, 25): the plane
count is appended after the input dimensions are truncated to the zone
rank, so the unit axis of the input does not survive in the middle. -/
theorem revolve_zone_dims_counterexample :
    revolve_zone_dims (pad3 [11, 1]) 25 = [11, 25, 1] ∧
    revolve_zone_dims (pad3 [11, 1]) 25 ≠ [11, 1, 25] := by decide

/-- C2 amended: for every rank-1 input zone of dimensions (M, 1) with more
than one point and every plane count N, the output zone of the revolution
has dimensions (M, N, 1): the output dimension tuple is the input tuple
truncated to the zone rank with the plane count appended as the new
trailing axis (the store pads the reported triple with unit axes). -/
theorem revolve_zone_dims_rank1 (M N : Nat) (h : 1 < M) :
    revolve_zone_dims (pad3 [M, 1]) N = [M, N, 1] := by
  have hrank : zone_rank (pad3 [M, 1]) = 1 := by
    simp [zone_rank, pad3, List.filter, h]
  rw [revolve_zone_dims, hrank]
  simp [pad3]

/-- Closed instantiation of revolve_zone_dims_rank1 at the acceptance test
sizes. -/
theorem revolve_zone_dims_rank1_witness :
    1 < 11 ∧ revolve_zone_dims (pad3 [11, 1]) 25 = [11, 25, 1] :=
  ⟨by decide, revolve_zone_dims_rank1 11 25 (by decide)⟩

/-- Argument vector_vars of revolve_dataset (core.py 378): Python None, a
list of source names, or a dict mapping a source name to the pair of its
component names, kept here as an association list in insertion order. -/
inductive VecArg where
  | vnone
  | vlist (vs : List String)
  | vdict (m : List (String × String × String))

/-- Argument radial_coord of revolve_dataset (core.py 378): Python None, a
bare variable name, or a dict as for vector_vars. -/
inductive RadArg where
  | rnone
  | rstr (s : String)
  | rdict (m : List (String × String × String))

/-- Truthiness of the radial_coord argument: None, the empty string and the
empty dict are falsy, so they trigger the defaulting of core.py 431-432. -/
def RadArg.falsy : RadArg → Bool
  | .rnone => true
  | .rstr s => s == ""
  | .rdict m => m.isEmpty

/-- Normalisation of vector_vars (core.py 412-416): a list of names becomes
the dict mapping each name v to the default component pair (v_cos, v_sin);
None becomes the empty dict. -/
def normalize_vector_vars : VecArg → List (String × String × String)
  | .vnone => []
  | .vlist vs => vs.map (fun v => (v, v ++ "_cos", v ++ "_sin"))
  | .vdict m => m

/-- Python dict merge of core.py 436: the keys of the first dict keep their
position and take the value from the second dict on collision; keys only in
the second dict follow, in its order. -/
def dict_merge (a b : List (String × String × String)) :
    List (String × String × String) :=
  a.map (fun pr => match b.find? (fun q => q.1 == pr.1) with
    | some q => (pr.1, q.2)
    | none => pr)
  ++ b.filter (fun q => a.all (fun pr => pr.1 != q.1))

/-- Output variable construction of core.py 452-461: each input variable is
added in input order; a vector-mapped variable is followed by those of its
two component names that are not already input variable names (both
components are checked in order and existing names are not re-added). The
first argument carries the full input variable list used for the
membership test, the last argument is the remaining input list. -/
def build_var_list (vars_in : List String) (vv : List (String × String × String)) :
    List String → List String
  | [] => []
  | v :: rest =>
      (v :: (match vv.find? (fun q => q.1 == v) with
             | none => []
             | some q => [q.2.1, q.2.2].filter (fun c => !vars_in.contains c)))
      ++ build_var_list vars_in vv rest

/-- Stages of revolve_dataset from the load of the input dataset to the
construction of the variable list of the output dataset (core.py 418-461):
the unique-variable-names assert, the radial-coordinate defaulting to the
input variable at index 1 when the argument is falsy (IndexError when the
dataset has fewer than two variables), the conversion of a bare radial name
r to the mapping r to (r, z) with the default z name flag, the dict merge
into vector_vars, the radial existence assert, the default z collision
assert, the vector source membership asserts, and finally the variable
list given to the output dataset created by frame_out.create_dataset. An
error return means the code raised before the output dataset received its
variables. -/
def revolve_setup (vars_in : List String) (radial_coord : RadArg)
    (vector_vars : VecArg) : Except PyError (List String) :=
  if vars_in.Nodup then
    let vv0 := normalize_vector_vars vector_vars
    match (if radial_coord.falsy then
             match vars_in[1]? with
             | some v => Except.ok (([(v, v, "z")], true))
             | none => Except.error PyError.indexError
           else
             match radial_coord with
             | .rstr s => Except.ok ([(s, s, "z")], true)
             | .rdict m => Except.ok (m, false)
             | .rnone => Except.ok ([], false)) with
    | .error e => .error e
    | .ok (radDict, default_zname) =>
        let merged := dict_merge radDict vv0
        let rname := (radDict.headD ("", "", "")).1
        if rname ∈ vars_in then
          if default_zname ∧ "z" ∈ vars_in then
            .error (.assertionError
              "new coordinate z will clobber an existing variable")
          else
            match merged.find? (fun q => !(vars_in.contains q.1)) with
            | some q => .error (.assertionError
                ("vector variable " ++ q.1 ++ " not present in dataset"))
            | none => .ok (build_var_list vars_in merged vars_in)
        else
          .error (.assertionError
            ("radial coordinate " ++ rname ++ " does not exist in dataset"))
  else .error (.assertionError "all variables must have unique names")

/-- C10: when radial_coord is omitted and the input dataset has fewer than
two variables, revolve_dataset raises IndexError reading the variable at
index 1, before the output dataset is created. -/
theorem revolve_default_radial_indexError (vars_in : List String)
    (vector_vars : VecArg) (h : vars_in.length < 2) :
    revolve_setup vars_in .rnone vector_vars = .error .indexError := by
  have hnd : vars_in.Nodup := by
    cases vars_in with
    | nil => exact List.nodup_nil
    | cons a t =>
        cases t with
        | nil => exact List.nodup_singleton a
        | cons b t2 =>
            simp only [List.length_cons] at h
            omega
  have h1 : vars_in[1]? = none := by
    rw [List.getElem?_eq_none_iff]
    omega
  rw [revolve_setup, if_pos hnd]
  rw [show RadArg.falsy .rnone = true from rfl]
  simp only [if_true, h1]

/-- Closed instantiation of revolve_default_radial_indexError at the
one-variable dataset. -/
theorem revolve_default_radial_indexError_witness :
    ((["x"] : List String).length < 2) ∧
    revolve_setup ["x"] .rnone .vnone = .error .indexError :=
  ⟨by decide, revolve_default_radial_indexError ["x"] .vnone (by decide)⟩

/-- C7: for the acceptance scenario (input variables x, y, q1, q2, v1, v2,
radial coordinate v1, vector variable v2 mapped to (v2y, v2z), and the
bare vector entry q2 with its default component names), the output variable
list is x, y, q1, q2, q2_cos, q2_sin, v1, z, v2, v2y, v2z: input order,
with each vector-mapped source followed immediately by its components not
already present as input variables (v1 itself is not re-added, z is new);
and with no vector mapping at all, the output variable list is exactly the
input variable list. -/
theorem revolve_variable_order :
    revolve_setup ["x", "y", "q1", "q2", "v1", "v2"] (.rstr "v1")
        (.vdict [("v2", "v2y", "v2z"), ("q2", "q2_cos", "q2_sin")])
      = .ok ["x", "y", "q1", "q2", "q2_cos", "q2_sin", "v1", "z", "v2", "v2y", "v2z"] ∧
    ∀ vars : List String, build_var_list vars [] vars = vars := by
  constructor
  · rfl
  · intro vars
    have haux : ∀ l : List String, build_var_list vars [] l = l := by
      intro l
      induction l with
      | nil => rfl
      | cons v rest ih => simp [build_var_list, ih]
    exact haux vars

/-- Closed instantiation of the general conjunct of revolve_variable_order
at a two-variable dataset. -/
theorem revolve_variable_order_witness :
    build_var_list ["x", "r"] [] ["x", "r"] = ["x", "r"] :=
  revolve_variable_order.2 ["x", "r"]

/-- Model of np.linspace(0, b, n) at index k (core.py 464): n evenly spaced
samples over the closed interval from 0 to b, both endpoints included, so
there are n - 1 equal steps; a single sample sits at the start 0. -/
noncomputable def linspace (b : ℝ) (n k : ℕ) : ℝ :=
  if n ≤ 1 then 0 else b * k / ((n : ℝ) - 1)

/-- Sample angle of data plane k in radians: np.radians(angle) converts the
sweep angle from degrees (core.py 464). -/
noncomputable def theta (angle : ℝ) (planes k : ℕ) : ℝ :=
  linspace (angle * Real.pi / 180) planes k

/-- Cosine table ct of core.py 466. -/
noncomputable def ct (angle : ℝ) (planes k : ℕ) : ℝ := Real.cos (theta angle planes k)

/-- Sine table st of core.py 465. -/
noncomputable def st (angle : ℝ) (planes k : ℕ) : ℝ := Real.sin (theta angle planes k)

/-- Concatenation of the per-plane value blocks written by the k loop of
core.py 479-487: block k occupies the entries from k times npt up to k + 1
times npt of the output sequence, in plane order. -/
def plane_concat {α : Type} (f : ℕ → List α) : ℕ → List α
  | 0 => []
  | n + 1 => plane_concat f n ++ f n

/-- Output value sequence of a non-vector variable in a revolved zone
(core.py 479-480): every plane block is a verbatim copy of the input
values. -/
def scalar_out (vals : List ℝ) (planes : ℕ) : List ℝ :=
  plane_concat (fun _ => vals) planes

/-- Output value sequence of the cos component of a vector-mapped variable
(core.py 486): plane block k holds the input values multiplied by ct k. -/
noncomputable def cos_out (vals : List ℝ) (planes : ℕ) (angle : ℝ) : List ℝ :=
  plane_concat (fun k => vals.map (fun x => x * ct angle planes k)) planes

/-- Output value sequence of the sin component of a vector-mapped variable
(core.py 487): plane block k holds the input values multiplied by st k. -/
noncomputable def sin_out (vals : List ℝ) (planes : ℕ) (angle : ℝ) : List ℝ :=
  plane_concat (fun k => vals.map (fun x => x * st angle planes k)) planes

/-- Plane block k of an output value sequence of a zone with npt points per
plane: the slice from k times npt up to k + 1 times npt. -/
def block {α : Type} (npt k : ℕ) (l : List α) : List α := (l.drop (k * npt)).take npt

theorem plane_concat_length {α : Type} (f : ℕ → List α) (npt : ℕ)
    (hlen : ∀ i, (f i).length = npt) (n : ℕ) :
    (plane_concat f n).length = n * npt := by
  induction n with
  | zero => simp [plane_concat]
  | succ n ih => simp [plane_concat, ih, hlen, Nat.succ_mul]

theorem block_plane_concat {α : Type} (f : ℕ → List α) (npt n k : ℕ)
    (hlen : ∀ i, (f i).length = npt) (hk : k < n) :
    block npt k (plane_concat f n) = f k := by
  induction n with
  | zero => omega
  | succ n ih =>
      rcases Nat.lt_succ_iff_lt_or_eq.mp hk with hlt | rfl
      · have hpc : (plane_concat f n).length = n * npt := plane_concat_length f npt hlen n
        have hdrop : k * npt ≤ (plane_concat f n).length := by
          rw [hpc]
          exact Nat.mul_le_mul_right npt (Nat.le_of_lt hlt)
        have htake : npt ≤ ((plane_concat f n).drop (k * npt)).length := by
          rw [List.length_drop, hpc]
          have hmul : (k + 1) * npt ≤ n * npt :=
            Nat.mul_le_mul_right npt (Nat.succ_le_of_lt hlt)
          rw [Nat.succ_mul] at hmul
          omega
        rw [show plane_concat f (n + 1) = plane_concat f n ++ f n from rfl]
        rw [block, List.drop_append_of_le_length hdrop,
          List.take_append_of_le_length htake]
        exact ih hlt
      · have hpc : (plane_concat f k).length = k * npt := plane_concat_length f npt hlen k
        rw [show plane_concat f (k + 1) = plane_concat f k ++ f k from rfl]
        rw [block, ← hpc, List.drop_left]
        rw [List.take_of_length_le (by rw [hlen k])]

theorem theta_zero (angle : ℝ) (planes : ℕ) : theta angle planes 0 = 0 := by
  unfold theta linspace
  split
  · rfl
  · simp

/-- C6: in a revolved zone, plane block k of every scalar (non-vector)
variable equals the input values verbatim (in particular block 0 does);
plane block 0 of the cos component of a vector-mapped variable equals the
input values and plane block 0 of its sin component is all zeros; plane
block k of the cos and sin components holds the input values multiplied by
the cosine and the sine of theta k; and the angles theta are evenly spaced
over the closed interval from 0 to the sweep angle in radians, with both
endpoints included and planes - 1 equal steps. -/
theorem revolve_plane_blocks (vals : List ℝ) (planes k : ℕ) (angle : ℝ)
    (hp : 0 < planes) (hk : k < planes) :
    block vals.length k (scalar_out vals planes) = vals ∧
    block vals.length 0 (cos_out vals planes angle) = vals ∧
    block vals.length 0 (sin_out vals planes angle) = vals.map (fun _ => 0) ∧
    block vals.length k (cos_out vals planes angle)
      = vals.map (fun x => x * Real.cos (theta angle planes k)) ∧
    block vals.length k (sin_out vals planes angle)
      = vals.map (fun x => x * Real.sin (theta angle planes k)) ∧
    theta angle planes 0 = 0 ∧
    (2 ≤ planes →
      theta angle planes (planes - 1) = angle * Real.pi / 180 ∧
      ∀ j, j + 1 < planes →
        theta angle planes (j + 1) - theta angle planes j
          = angle * Real.pi / 180 / ((planes : ℝ) - 1)) := by
  have hclen : ∀ c : ℝ → ℝ, ∀ i : ℕ,
      (vals.map (fun x => x * c i)).length = vals.length := by
    intro c i
    exact List.length_map vals _
  refine ⟨?_, ?_, ?_, ?_, ?_, theta_zero angle planes, ?_⟩
  · exact block_plane_concat (fun _ => vals) vals.length planes k (fun _ => rfl) hk
  · rw [cos_out, block_plane_concat _ vals.length planes 0
      (fun i => List.length_map vals _) hp]
    simp [ct, theta_zero]
  · rw [sin_out, block_plane_concat _ vals.length planes 0
      (fun i => List.length_map vals _) hp]
    simp [st, theta_zero]
  · rw [cos_out, block_plane_concat _ vals.length planes k
      (fun i => List.length_map vals _) hk]
    rfl
  · rw [sin_out, block_plane_concat _ vals.length planes k
      (fun i => List.length_map vals _) hk]
    rfl
  · intro h2
    have hne : ¬(planes ≤ 1) := by omega
    have hcast : ((planes - 1 : ℕ) : ℝ) = (planes : ℝ) - 1 := by
      have : (1 : ℕ) ≤ planes := by omega
      push_cast [this]
      ring
    have hden : ((planes : ℝ) - 1) ≠ 0 := by
      have : (2 : ℝ) ≤ (planes : ℝ) := by exact_mod_cast h2
      intro hzero
      nlinarith
    constructor
    · unfold theta linspace
      rw [if_neg hne, hcast, mul_div_assoc, div_self hden, mul_one]
    · intro j hj
      unfold theta linspace
      rw [if_neg hne, if_neg hne, div_sub_div_same]
      rw [show angle * Real.pi / 180 * ((j : ℕ) + 1 : ℕ)
            - angle * Real.pi / 180 * (j : ℕ) = angle * Real.pi / 180 from by
        push_cast
        ring]

/-- Closed instantiation of revolve_plane_blocks: one input value, two
planes, a 180 degree sweep, block index one. -/
theorem revolve_plane_blocks_witness :
    (0 < 2 ∧ 1 < 2) ∧
    (block [(1 : ℝ)].length 1 (scalar_out [(1 : ℝ)] 2) = [(1 : ℝ)] ∧
     block [(1 : ℝ)].length 0 (cos_out [(1 : ℝ)] 2 180) = [(1 : ℝ)] ∧
     block [(1 : ℝ)].length 0 (sin_out [(1 : ℝ)] 2 180)
        = ([(1 : ℝ)].map (fun _ => 0)) ∧
     block [(1 : ℝ)].length 1 (cos_out [(1 : ℝ)] 2 180)
        = ([(1 : ℝ)].map (fun x => x * Real.cos (theta 180 2 1))) ∧
     block [(1 : ℝ)].length 1 (sin_out [(1 : ℝ)] 2 180)
        = ([(1 : ℝ)].map (fun x => x * Real.sin (theta 180 2 1))) ∧
     theta 180 2 0 = 0 ∧
     (2 ≤ 2 →
       theta 180 2 (2 - 1) = 180 * Real.pi / 180 ∧
       ∀ j, j + 1 < 2 →
         theta 180 2 (j + 1) - theta 180 2 j
           = 180 * Real.pi / 180 / (((2 : ℕ) : ℝ) - 1))) :=
  ⟨⟨by decide, by decide⟩,
    revolve_plane_blocks [(1 : ℝ)] 2 1 180 (by decide) (by decide)⟩

end TecUtil
